import Mathlib

/-!
Verification of the axum/sqlx CRUD service in
src/rust-axum-rest-api/src/main.rs.

The service exposes six HTTP handlers over two Postgres tables,
posts(id, user_id, title, body) and users(id, username, email).
Each handler issues exactly one parameterized SQL statement on the shared
pool and maps the result into a JSON body plus an HTTP status code.

Embedding: the database is a `DB` record (the two tables plus the two
SERIAL id counters).  Each SQL statement of the source is one constructor
of `Prog`, a tiny free-monad-like program type; `runProg` interprets a
program against a `DB` together with a `healthy` flag (false models a
transient storage failure such as a lost connection), returning the
handler result, the new database and the number of statements issued.
Handler results are `Except Nat β`: `.ok` is an HTTP 200 with a JSON body,
`.error s` is the bare status code `s`, exactly as the Rust
`Result<Json<β>, StatusCode>` values convert to responses.
-/

/-- Persisted `posts` row / response shape declared in the source
    (`struct Post { id, user_id, title, body }`). -/
structure Post where
  id : Int
  user_id : Option Int
  title : String
  body : String
deriving Repr, DecidableEq

/-- Persisted `users` row / response shape (`struct User`). -/
structure User where
  id : Int
  username : String
  email : String
deriving Repr, DecidableEq

/-- Request body of PUT /posts/:id (`struct UpdatePost`). -/
structure UpdatePost where
  title : String
  body : String
  user_id : Option Int
deriving Repr, DecidableEq

/-- Request body of POST /posts.  The source handler reads
    `new_post.user_id`, `new_post.title`, `new_post.body`; the struct
    declaration itself is absent from main.rs, so its field list is taken
    from that usage (it matches the spec's CreatePost shape). -/
structure CreatePost where
  user_id : Option Int
  title : String
  body : String
deriving Repr, DecidableEq

/-- Request body of POST /users (`struct CreateUser`). -/
structure CreateUser where
  username : String
  email : String
deriving Repr, DecidableEq

/-- Row shape produced by the list query `SELECT id, title, body FROM
    posts`: only the three selected columns are available to the
    response. -/
structure PostListItem where
  id : Int
  title : String
  body : String
deriving Repr, DecidableEq

/-- The relational store: the two tables plus Postgres's SERIAL
    counters that generate fresh primary keys on insert. -/
structure DB where
  posts : List Post
  users : List User
  nextPostId : Int
  nextUserId : Int
deriving Repr, DecidableEq

/-- The freshly created store: empty tables, SERIAL counters at 1. -/
def initDB : DB := ⟨[], [], 1, 1⟩

/-- JSON values, for stating exactly which fields a response body
    carries (serde serialization of the response structs). -/
inductive Json where
  | null : Json
  | int : Int → Json
  | str : String → Json
  | arr : List Json → Json
  | obj : List (String × Json) → Json
deriving Repr

/-- Serde turns `Option<i32>` into the number or `null`. -/
def optIntToJson : Option Int → Json
  | none => Json.null
  | some n => Json.int n

/-- Serde serialization of `Post`: all four declared fields, in
    declaration order. -/
def postToJson (p : Post) : Json :=
  Json.obj [("id", Json.int p.id), ("user_id", optIntToJson p.user_id),
            ("title", Json.str p.title), ("body", Json.str p.body)]

/-- Serialization of a list-query row: only the three selected columns. -/
def postListItemToJson (r : PostListItem) : Json :=
  Json.obj [("id", Json.int r.id), ("title", Json.str r.title),
            ("body", Json.str r.body)]

/-- Serde serialization of `User`. -/
def userToJson (u : User) : Json :=
  Json.obj [("id", Json.int u.id), ("username", Json.str u.username),
            ("email", Json.str u.email)]

/-- Top-level field names of a JSON object. -/
def Json.keys : Json → List String
  | Json.obj fields => fields.map Prod.fst
  | _ => []

/-- Whether inserting/updating a row with this `user_id` violates the
    foreign key posts.user_id → users.id: a present value that matches
    no existing user.  NULL never violates the constraint. -/
def fkViolation (uid : Option Int) (db : DB) : Bool :=
  match uid with
  | none => false
  | some u => !(db.users.any (fun w => w.id == u))

/-- Programs over the storage layer: one constructor per SQL statement
    appearing in the source, each carrying its parameters and a
    continuation on the statement outcome (`Except Unit rows`, where
    `.error ()` is a storage-level execution failure). -/
inductive Prog (α : Type) : Type where
  | ret : α → Prog α
  | selectPostsQ : (Except Unit (List PostListItem) → Prog α) → Prog α
  | selectPostQ : Int → (Except Unit (List Post) → Prog α) → Prog α
  | insertPostQ : CreatePost → (Except Unit (List Post) → Prog α) → Prog α
  | updatePostQ : Int → UpdatePost → (Except Unit (List Post) → Prog α) → Prog α
  | deletePostQ : Int → (Except Unit Nat → Prog α) → Prog α
  | insertUserQ : CreateUser → (Except Unit (List User) → Prog α) → Prog α

/-- A row of `posts` after `SET title = $1, body = $2, user_id = $3`. -/
def applyUpdate (up : UpdatePost) (q : Post) : Post :=
  ⟨q.id, up.user_id, up.title, up.body⟩

/-- Interpret a program against the store.  `healthy = false` makes
    every statement fail at execution (transient storage failure);
    otherwise each statement gets Postgres semantics: SELECT returns the
    matching rows in table order, INSERT appends a row under the next
    SERIAL id and returns it (RETURNING), UPDATE rewrites every matching
    row and returns them, DELETE removes matching rows and reports the
    affected count, and an INSERT/UPDATE that would leave a row with a
    dangling user_id fails the whole statement, leaving the store
    unchanged.  The third component counts statements issued. -/
def runProg (healthy : Bool) : Prog α → DB → α × DB × Nat
  | Prog.ret a, db => (a, db, 0)
  | Prog.selectPostsQ k, db =>
      let out : Except Unit (List PostListItem) :=
        if healthy then
          Except.ok (db.posts.map (fun p => ⟨p.id, p.title, p.body⟩))
        else Except.error ()
      let r := runProg healthy (k out) db
      (r.1, r.2.1, r.2.2 + 1)
  | Prog.selectPostQ id k, db =>
      let out : Except Unit (List Post) :=
        if healthy then Except.ok (db.posts.filter (fun p => p.id == id))
        else Except.error ()
      let r := runProg healthy (k out) db
      (r.1, r.2.1, r.2.2 + 1)
  | Prog.insertPostQ np k, db =>
      let outdb : Except Unit (List Post) × DB :=
        if healthy then
          if fkViolation np.user_id db then (Except.error (), db)
          else
            let p : Post := ⟨db.nextPostId, np.user_id, np.title, np.body⟩
            (Except.ok [p],
             { db with posts := db.posts ++ [p], nextPostId := db.nextPostId + 1 })
        else (Except.error (), db)
      let r := runProg healthy (k outdb.1) outdb.2
      (r.1, r.2.1, r.2.2 + 1)
  | Prog.updatePostQ id up k, db =>
      let outdb : Except Unit (List Post) × DB :=
        if healthy then
          let matched := db.posts.filter (fun p => p.id == id)
          if matched.isEmpty then (Except.ok [], db)
          else if fkViolation up.user_id db then (Except.error (), db)
          else
            let newPosts :=
              db.posts.map (fun q => if q.id == id then applyUpdate up q else q)
            (Except.ok (matched.map (applyUpdate up)), { db with posts := newPosts })
        else (Except.error (), db)
      let r := runProg healthy (k outdb.1) outdb.2
      (r.1, r.2.1, r.2.2 + 1)
  | Prog.deletePostQ id k, db =>
      let outdb : Except Unit Nat × DB :=
        if healthy then
          (Except.ok (db.posts.filter (fun p => p.id == id)).length,
           { db with posts := db.posts.filter (fun p => !(p.id == id)) })
        else (Except.error (), db)
      let r := runProg healthy (k outdb.1) outdb.2
      (r.1, r.2.1, r.2.2 + 1)
  | Prog.insertUserQ nu k, db =>
      let outdb : Except Unit (List User) × DB :=
        if healthy then
          let u : User := ⟨db.nextUserId, nu.username, nu.email⟩
          (Except.ok [u],
           { db with users := db.users ++ [u], nextUserId := db.nextUserId + 1 })
        else (Except.error (), db)
      let r := runProg healthy (k outdb.1) outdb.2
      (r.1, r.2.1, r.2.2 + 1)

/-- HTTP status of a handler result: a body converts to 200, an error
    is the bare status code. -/
def statusOf : Except Nat β → Nat
  | Except.ok _ => 200
  | Except.error s => s

/-- Handler for GET /: `async fn root() -> &'static str` returns the
    fixed text; it takes no pool and reads no state. -/
def root : String := "Hello, world!"

/-- Response of the root handler: axum converts a returned `&'static
    str` into a 200 response with that text as the body. -/
def rootResponse : Nat × String := (200, root)

/-- Program of GET /posts (`get_posts`): one `SELECT id, title, body
    FROM posts` fetched with fetch_all; any storage error is mapped to
    500. -/
def get_posts_prog : Prog (Except Nat (List PostListItem)) :=
  Prog.selectPostsQ (fun r =>
    Prog.ret (match r with
      | Except.ok rows => Except.ok rows
      | Except.error _ => Except.error 500))

/-- Program of GET /posts/:id (`get_post`): one `SELECT id, user_id,
    title, body FROM posts WHERE id = $1` fetched with fetch_one; both a
    statement error and an empty result (fetch_one's RowNotFound) are
    mapped to 404 by `map_err`. -/
def get_post_prog (id : Int) : Prog (Except Nat Post) :=
  Prog.selectPostQ id (fun r =>
    Prog.ret (match r with
      | Except.ok rows =>
          match rows.head? with
          | some p => Except.ok p
          | none => Except.error 404
      | Except.error _ => Except.error 404))

/-- Program of POST /posts (`create_post`): one `INSERT INTO posts
    (user_id, title, body) VALUES ($1,$2,$3) RETURNING ...` fetched with
    fetch_one; any error is mapped to 500. -/
def create_post_prog (np : CreatePost) : Prog (Except Nat Post) :=
  Prog.insertPostQ np (fun r =>
    Prog.ret (match r with
      | Except.ok rows =>
          match rows.head? with
          | some p => Except.ok p
          | none => Except.error 500
      | Except.error _ => Except.error 500))

/-- Program of PUT /posts/:id (`update_post`): one `UPDATE posts SET
    title = $1, body = $2, user_id = $3 WHERE id = $4 RETURNING ...`
    fetched with fetch_one; any error (statement failure or no row
    matched) is mapped to 404. -/
def update_post_prog (id : Int) (up : UpdatePost) : Prog (Except Nat Post) :=
  Prog.updatePostQ id up (fun r =>
    Prog.ret (match r with
      | Except.ok rows =>
          match rows.head? with
          | some p => Except.ok p
          | none => Except.error 404
      | Except.error _ => Except.error 404))

/-- Program of DELETE /posts/:id (`delete_post`): one `DELETE FROM posts
    WHERE id = $1` via execute; on Ok (regardless of the affected-row
    count) the fixed success message object is returned, on Err the
    status is 404. -/
def delete_post_prog (id : Int) : Prog (Except Nat Json) :=
  Prog.deletePostQ id (fun r =>
    Prog.ret (match r with
      | Except.ok _ =>
          Except.ok (Json.obj [("message", Json.str "Post deleted successfully")])
      | Except.error _ => Except.error 404))

/-- Program of POST /users (`create_user`): one `INSERT INTO users
    (username, email) VALUES ($1,$2) RETURNING ...` fetched with
    fetch_one; any error is mapped to 500. -/
def create_user_prog (nu : CreateUser) : Prog (Except Nat User) :=
  Prog.insertUserQ nu (fun r =>
    Prog.ret (match r with
      | Except.ok rows =>
          match rows.head? with
          | some u => Except.ok u
          | none => Except.error 500
      | Except.error _ => Except.error 500))

/-- Result and post-state of `get_posts` on a given store. -/
def get_posts (healthy : Bool) (db : DB) : Except Nat (List PostListItem) × DB :=
  let r := runProg healthy get_posts_prog db
  (r.1, r.2.1)

/-- Result and post-state of `get_post`. -/
def get_post (healthy : Bool) (db : DB) (id : Int) : Except Nat Post × DB :=
  let r := runProg healthy (get_post_prog id) db
  (r.1, r.2.1)

/-- Result and post-state of `create_post`. -/
def create_post (healthy : Bool) (db : DB) (np : CreatePost) : Except Nat Post × DB :=
  let r := runProg healthy (create_post_prog np) db
  (r.1, r.2.1)

/-- Result and post-state of `update_post`. -/
def update_post (healthy : Bool) (db : DB) (id : Int) (up : UpdatePost) :
    Except Nat Post × DB :=
  let r := runProg healthy (update_post_prog id up) db
  (r.1, r.2.1)

/-- Result and post-state of `delete_post`. -/
def delete_post (healthy : Bool) (db : DB) (id : Int) : Except Nat Json × DB :=
  let r := runProg healthy (delete_post_prog id) db
  (r.1, r.2.1)

/-- Result and post-state of `create_user`. -/
def create_user (healthy : Bool) (db : DB) (nu : CreateUser) : Except Nat User × DB :=
  let r := runProg healthy (create_user_prog nu) db
  (r.1, r.2.1)

/-- Number of SQL statements a program issues on the pool in one run. -/
def stmtCount (healthy : Bool) (p : Prog α) (db : DB) : Nat :=
  (runProg healthy p db).2.2

/-- One incoming API request (the six routed endpoints that touch the
    store; GET / touches nothing). -/
inductive Request where
  | listPosts : Request
  | getPost : Int → Request
  | createPost : CreatePost → Request
  | updatePost : Int → UpdatePost → Request
  | deletePost : Int → Request
  | createUser : CreateUser → Request

/-- Serve one request: the store it leaves behind, and the list of post
    ids returned by the request when it is a successful create (empty
    otherwise).  Each request carries its own storage-health flag. -/
def serveRequest (healthy : Bool) (db : DB) : Request → DB × List Int
  | Request.listPosts => ((get_posts healthy db).2, [])
  | Request.getPost id => ((get_post healthy db id).2, [])
  | Request.createPost np =>
      match create_post healthy db np with
      | (Except.ok p, db2) => (db2, [p.id])
      | (Except.error _, db2) => (db2, [])
  | Request.updatePost id up => ((update_post healthy db id up).2, [])
  | Request.deletePost id => ((delete_post healthy db id).2, [])
  | Request.createUser nu => ((create_user healthy db nu).2, [])

/-- Serve a sequence of requests from a store, accumulating every post
    id previously returned by a create. -/
def serveTrace : DB → List Int → List (Bool × Request) → DB × List Int
  | db, ids, [] => (db, ids)
  | db, ids, (h, r) :: rest =>
      let s := serveRequest h db r
      serveTrace s.1 (ids ++ s.2) rest

/-- Store/history invariant: every stored post id and every id ever
    returned by a create is below the SERIAL counter. -/
def freshInv (db : DB) (ids : List Int) : Prop :=
  (∀ p ∈ db.posts, p.id < db.nextPostId) ∧ (∀ i ∈ ids, i < db.nextPostId)

/-! Closed forms of the handlers, read off from one unfolding of the
interpreter. -/

theorem get_posts_true (db : DB) :
    get_posts true db =
      (Except.ok (db.posts.map (fun p => ⟨p.id, p.title, p.body⟩)), db) := rfl

theorem get_posts_false (db : DB) :
    get_posts false db = (Except.error 500, db) := rfl

theorem get_post_true (db : DB) (id : Int) :
    get_post true db id =
      (match (db.posts.filter (fun p => p.id == id)).head? with
       | some p => Except.ok p
       | none => Except.error 404, db) := rfl

theorem get_post_false (db : DB) (id : Int) :
    get_post false db id = (Except.error 404, db) := rfl

theorem create_post_true (db : DB) (np : CreatePost) :
    create_post true db np =
      (if fkViolation np.user_id db then (Except.error 500, db)
       else
         (Except.ok ⟨db.nextPostId, np.user_id, np.title, np.body⟩,
          { db with
              posts := db.posts ++ [⟨db.nextPostId, np.user_id, np.title, np.body⟩],
              nextPostId := db.nextPostId + 1 })) := by
  by_cases h : fkViolation np.user_id db <;>
    simp [create_post, create_post_prog, runProg, h]

theorem create_post_false (db : DB) (np : CreatePost) :
    create_post false db np = (Except.error 500, db) := rfl

theorem update_post_true (db : DB) (id : Int) (up : UpdatePost) :
    update_post true db id up =
      (if (db.posts.filter (fun p => p.id == id)).isEmpty then
         (Except.error 404, db)
       else if fkViolation up.user_id db then (Except.error 404, db)
       else
         (match ((db.posts.filter (fun p => p.id == id)).map (applyUpdate up)).head? with
          | some p => Except.ok p
          | none => Except.error 404,
          { db with posts :=
              db.posts.map (fun q => if q.id == id then applyUpdate up q else q) })) := by
  by_cases h1 : (db.posts.filter (fun p => p.id == id)).isEmpty <;>
    by_cases h2 : fkViolation up.user_id db <;>
      simp [update_post, update_post_prog, runProg, h1, h2]

theorem update_post_false (db : DB) (id : Int) (up : UpdatePost) :
    update_post false db id up = (Except.error 404, db) := rfl

theorem delete_post_true (db : DB) (id : Int) :
    delete_post true db id =
      (Except.ok (Json.obj [("message", Json.str "Post deleted successfully")]),
       { db with posts := db.posts.filter (fun p => !(p.id == id)) }) := rfl

theorem delete_post_false (db : DB) (id : Int) :
    delete_post false db id = (Except.error 404, db) := rfl

theorem create_user_true (db : DB) (nu : CreateUser) :
    create_user true db nu =
      (Except.ok ⟨db.nextUserId, nu.username, nu.email⟩,
       { db with
           users := db.users ++ [⟨db.nextUserId, nu.username, nu.email⟩],
           nextUserId := db.nextUserId + 1 }) := rfl

theorem create_user_false (db : DB) (nu : CreateUser) :
    create_user false db nu = (Except.error 500, db) := rfl

/-! List facts used below. -/

theorem head?_filter_eq_find? (p : α → Bool) :
    ∀ l : List α, (l.filter p).head? = l.find? p := by
  intro l
  induction l with
  | nil => rfl
  | cons a t ih =>
      by_cases h : p a <;> simp [List.filter_cons, List.find?_cons, h, ih]

theorem filter_update_comm (X : Int) (up : UpdatePost) :
    ∀ l : List Post,
      (l.map (fun q => if q.id == X then applyUpdate up q else q)).filter
          (fun p => p.id == X)
        = (l.filter (fun p => p.id == X)).map (applyUpdate up) := by
  intro l
  induction l with
  | nil => rfl
  | cons a t ih =>
      by_cases h : a.id = X <;> simp [List.filter_cons, h, applyUpdate] at ih ⊢ <;>
        exact ih

/-! Invariant: post ids in the store and ids returned by past creates
stay below the SERIAL counter, across every request. -/

theorem serveRequest_preserves_freshInv (h : Bool) (db : DB) (r : Request)
    (ids : List Int) (hinv : freshInv db ids) :
    freshInv (serveRequest h db r).1 (ids ++ (serveRequest h db r).2) := by
  obtain ⟨hposts, hids⟩ := hinv
  cases r with
  | listPosts =>
      cases h <;>
        simp only [serveRequest, get_posts_true, get_posts_false, List.append_nil] <;>
          exact ⟨hposts, hids⟩
  | getPost id =>
      cases h <;>
        simp only [serveRequest, get_post_true, get_post_false, List.append_nil] <;>
          exact ⟨hposts, hids⟩
  | createPost np =>
      cases h with
      | false =>
          simp only [serveRequest, create_post_false, List.append_nil]
          exact ⟨hposts, hids⟩
      | true =>
          by_cases hfk : fkViolation np.user_id db
          · simp only [serveRequest, create_post_true, hfk, if_true, List.append_nil]
            exact ⟨hposts, hids⟩
          · simp only [serveRequest, create_post_true, hfk, if_false, Bool.false_eq_true]
            constructor
            · intro p hp
              rcases List.mem_append.mp hp with hp1 | hp2
              · exact lt_trans (hposts p hp1) (lt_add_one _)
              · rw [List.mem_singleton.mp hp2]
                exact lt_add_one _
            · intro i hi
              rcases List.mem_append.mp hi with hi1 | hi2
              · exact lt_trans (hids i hi1) (lt_add_one _)
              · rw [List.mem_singleton.mp hi2]
                exact lt_add_one _
  | updatePost id up =>
      cases h with
      | false =>
          simp only [serveRequest, update_post_false, List.append_nil]
          exact ⟨hposts, hids⟩
      | true =>
          by_cases h1 : (db.posts.filter (fun p => p.id == id)).isEmpty
          · simp only [serveRequest, update_post_true, h1, if_true, List.append_nil]
            exact ⟨hposts, hids⟩
          · by_cases h2 : fkViolation up.user_id db
            · simp only [serveRequest, update_post_true, h1, h2, if_true, if_false,
                Bool.false_eq_true, List.append_nil]
              exact ⟨hposts, hids⟩
            · simp only [serveRequest, update_post_true, h1, h2, if_false,
                Bool.false_eq_true, List.append_nil]
              constructor
              · intro p hp
                obtain ⟨q, hq, hqe⟩ := List.mem_map.mp hp
                have : p.id = q.id := by
                  by_cases hqid : q.id == id <;> simp [hqid, applyUpdate] at hqe <;>
                    rw [← hqe]
                rw [this]
                exact hposts q hq
              · exact hids
  | deletePost id =>
      cases h with
      | false =>
          simp only [serveRequest, delete_post_false, List.append_nil]
          exact ⟨hposts, hids⟩
      | true =>
          simp only [serveRequest, delete_post_true, List.append_nil]
          constructor
          · intro p hp
            exact hposts p (List.mem_filter.mp hp).1
          · exact hids
  | createUser nu =>
      cases h <;>
        simp only [serveRequest, create_user_false, create_user_true, List.append_nil] <;>
          exact ⟨hposts, hids⟩

theorem serveTrace_preserves_freshInv :
    ∀ (trace : List (Bool × Request)) (db : DB) (ids : List Int),
      freshInv db ids →
        freshInv (serveTrace db ids trace).1 (serveTrace db ids trace).2 := by
  intro trace
  induction trace with
  | nil => intro db ids hinv; exact hinv
  | cons hr rest ih =>
      intro db ids hinv
      obtain ⟨h, r⟩ := hr
      simp only [serveTrace]
      exact ih _ _ (serveRequest_preserves_freshInv h db r ids hinv)

theorem freshInv_init : freshInv initDB [] := by
  constructor <;> intro x hx <;> simp [initDB] at hx

/-! The claims. -/

/-- C9: the root handler returns status 200 with exactly the text
    "Hello, world!"; it takes no pool and reads no stored state, so the
    response is independent of the database and of all state. -/
theorem root_contract : root = "Hello, world!" ∧ rootResponse = (200, "Hello, world!") :=
  ⟨rfl, rfl⟩

/-- C3: for every id — including one matching no stored post — delete-post
    returns status 200 with exactly the JSON body
    {"message": "Post deleted successfully"} whenever the delete statement
    does not error (no existence check: when nothing matches, the store is
    returned unchanged and the same success body is produced); a hard
    storage error yields 404. -/
theorem delete_post_contract (db : DB) (id : Int) :
    delete_post true db id =
      (Except.ok (Json.obj [("message", Json.str "Post deleted successfully")]),
       { db with posts := db.posts.filter (fun p => !(p.id == id)) }) ∧
    statusOf (delete_post true db id).1 = 200 ∧
    ((∀ p ∈ db.posts, ¬p.id = id) →
      delete_post true db id =
        (Except.ok (Json.obj [("message", Json.str "Post deleted successfully")]), db)) ∧
    delete_post false db id = (Except.error 404, db) := by
  refine ⟨rfl, rfl, ?_, rfl⟩
  intro hnone
  rw [delete_post_true]
  have hfilter : db.posts.filter (fun p => !(p.id == id)) = db.posts := by
    apply List.filter_eq_self.mpr
    intro p hp
    simp [hnone p hp]
  rw [hfilter]

/-- C3 witness: deleting id 5 from a store holding only post 1 succeeds
    with the fixed message and leaves the store unchanged. -/
theorem delete_post_contract_witness :
    (∀ p ∈ ({ posts := [⟨1, none, "t", "b"⟩], users := [], nextPostId := 2,
              nextUserId := 1 } : DB).posts, ¬p.id = 5) ∧
    delete_post true
        { posts := [⟨1, none, "t", "b"⟩], users := [], nextPostId := 2, nextUserId := 1 } 5 =
      (Except.ok (Json.obj [("message", Json.str "Post deleted successfully")]),
       { posts := [⟨1, none, "t", "b"⟩], users := [], nextPostId := 2, nextUserId := 1 }) := by
  refine ⟨by decide, ?_⟩
  exact (delete_post_contract
    { posts := [⟨1, none, "t", "b"⟩], users := [], nextPostId := 2, nextUserId := 1 }
    5).2.2.1 (by decide)

/-- C5: list-posts takes no input and on a healthy store returns status
    200 with one record per stored post, each record carrying exactly the
    fields id, title and body (no user_id); any storage failure yields a
    bare 500. -/
theorem get_posts_contract (db : DB) :
    get_posts true db =
      (Except.ok (db.posts.map (fun p => ⟨p.id, p.title, p.body⟩)), db) ∧
    statusOf (get_posts true db).1 = 200 ∧
    (db.posts.map (fun p : Post => (⟨p.id, p.title, p.body⟩ : PostListItem))).length
      = db.posts.length ∧
    (∀ r : PostListItem, Json.keys (postListItemToJson r) = ["id", "title", "body"]) ∧
    get_posts false db = (Except.error 500, db) :=
  ⟨rfl, rfl, db.posts.length_map _, fun _ => rfl, rfl⟩

/-- C6: create-user inserts exactly one row and returns status 200 with a
    User whose username and email equal the submitted values and whose id
    is the SERIAL value generated by storage; any storage failure yields
    500. -/
theorem create_user_contract (db : DB) (nu : CreateUser) :
    create_user true db nu =
      (Except.ok ⟨db.nextUserId, nu.username, nu.email⟩,
       { db with
           users := db.users ++ [⟨db.nextUserId, nu.username, nu.email⟩],
           nextUserId := db.nextUserId + 1 }) ∧
    ((create_user true db nu).2).users.length = db.users.length + 1 ∧
    statusOf (create_user true db nu).1 = 200 ∧
    create_user false db nu = (Except.error 500, db) := by
  refine ⟨rfl, ?_, rfl, rfl⟩
  simp [create_user_true]

/-- C8: every request to any of the six handlers issues exactly one SQL
    statement on the pool, whatever the store contents and whether or not
    the statement fails — so no handler makes a second call and no failed
    call is retried. -/
theorem one_statement_per_request (healthy : Bool) (db : DB) (i j k : Int)
    (np : CreatePost) (up : UpdatePost) (nu : CreateUser) :
    stmtCount healthy get_posts_prog db = 1 ∧
    stmtCount healthy (get_post_prog i) db = 1 ∧
    stmtCount healthy (create_post_prog np) db = 1 ∧
    stmtCount healthy (update_post_prog j up) db = 1 ∧
    stmtCount healthy (delete_post_prog k) db = 1 ∧
    stmtCount healthy (create_user_prog nu) db = 1 := by
  refine ⟨rfl, rfl, ?_, ?_, ?_, rfl⟩ <;>
    simp [stmtCount, create_post_prog, update_post_prog, delete_post_prog, runProg]

/-- C4: get-post returns status 200 with the first matching row, a Post
    carrying all four fields, when the row exists and storage is healthy;
    a missing row and a storage failure both produce the identical bare
    404, so the two causes are indistinguishable to the caller. -/
theorem get_post_contract (db : DB) (id : Int) :
    (∀ p, db.posts.find? (fun q => q.id == id) = some p →
       get_post true db id = (Except.ok p, db) ∧
       statusOf (get_post true db id).1 = 200 ∧
       Json.keys (postToJson p) = ["id", "user_id", "title", "body"]) ∧
    (db.posts.find? (fun q => q.id == id) = none →
       get_post true db id = (Except.error 404, db)) ∧
    get_post false db id = (Except.error 404, db) := by
  refine ⟨?_, ?_, rfl⟩
  · intro p hp
    have hh : (db.posts.filter (fun q => q.id == id)).head? = some p := by
      rw [head?_filter_eq_find?]; exact hp
    rw [get_post_true, hh]
    exact ⟨rfl, rfl, rfl⟩
  · intro hnone
    have hh : (db.posts.filter (fun q => q.id == id)).head? = none := by
      rw [head?_filter_eq_find?]; exact hnone
    rw [get_post_true, hh]

/-- C4 witness: on a store holding post 1, fetching id 1 returns that
    post and fetching id 2 returns 404. -/
theorem get_post_contract_witness :
    (({ posts := [⟨1, some 7, "t", "b"⟩], users := [⟨7, "u", "e"⟩], nextPostId := 2,
        nextUserId := 8 } : DB).posts.find? (fun q => q.id == 1)
      = some ⟨1, some 7, "t", "b"⟩) ∧
    get_post true
        { posts := [⟨1, some 7, "t", "b"⟩], users := [⟨7, "u", "e"⟩], nextPostId := 2,
          nextUserId := 8 } 1 =
      (Except.ok ⟨1, some 7, "t", "b"⟩,
       { posts := [⟨1, some 7, "t", "b"⟩], users := [⟨7, "u", "e"⟩], nextPostId := 2,
         nextUserId := 8 }) := by
  refine ⟨by decide, ?_⟩
  exact ((get_post_contract
    { posts := [⟨1, some 7, "t", "b"⟩], users := [⟨7, "u", "e"⟩], nextPostId := 2,
      nextUserId := 8 } 1).1 ⟨1, some 7, "t", "b"⟩ (by decide)).1

/-- C10: when no stored post matches the given id, update-post answers
    404 (under a healthy store via fetch_one's RowNotFound, under a failed
    statement via the same mapping) and the posts table — indeed the whole
    store — is left exactly as it was. -/
theorem update_missing_id_unchanged (h : Bool) (db : DB) (id : Int) (up : UpdatePost)
    (hnone : ∀ p ∈ db.posts, ¬p.id = id) :
    update_post h db id up = (Except.error 404, db) := by
  cases h with
  | false => exact update_post_false db id up
  | true =>
      have hfilter : db.posts.filter (fun p => p.id == id) = [] := by
        apply List.filter_eq_nil_iff.mpr
        intro p hp
        simp [hnone p hp]
      rw [update_post_true, hfilter]
      rfl

/-- C10 witness: updating id 9 on a store holding only post 1 returns 404
    and leaves the store untouched. -/
theorem update_missing_id_unchanged_witness :
    (∀ p ∈ ({ posts := [⟨1, none, "t", "b"⟩], users := [], nextPostId := 2,
              nextUserId := 1 } : DB).posts, ¬p.id = 9) ∧
    update_post true
        { posts := [⟨1, none, "t", "b"⟩], users := [], nextPostId := 2, nextUserId := 1 }
        9 ⟨"T", "B", none⟩ =
      (Except.error 404,
       { posts := [⟨1, none, "t", "b"⟩], users := [], nextPostId := 2, nextUserId := 1 }) :=
  ⟨by decide,
   update_missing_id_unchanged true
     { posts := [⟨1, none, "t", "b"⟩], users := [], nextPostId := 2, nextUserId := 1 }
     9 ⟨"T", "B", none⟩ (by decide)⟩

/-- C2: full-replacement update. For an existing post id X and an
    UpdatePost {title := T, body := B, user_id := U} whose user_id does
    not violate the foreign key, the update succeeds returning exactly
    the Post {id := X, user_id := U, title := T, body := B}, and fetching
    X afterwards yields exactly that post: every mutable field is
    overwritten, none is merged from the previous row. -/
theorem update_then_get_full_replacement (db : DB) (X : Int) (T B : String)
    (U : Option Int)
    (hex : ∃ q ∈ db.posts, q.id = X)
    (hfk : fkViolation U db = false) :
    (update_post true db X ⟨T, B, U⟩).1 = Except.ok ⟨X, U, T, B⟩ ∧
    (get_post true (update_post true db X ⟨T, B, U⟩).2 X).1 = Except.ok ⟨X, U, T, B⟩ := by
  obtain ⟨q, hq, hqid⟩ := hex
  have hqmem : q ∈ db.posts.filter (fun p => p.id == X) :=
    List.mem_filter.mpr ⟨hq, by simp [hqid]⟩
  have hne : (db.posts.filter (fun p => p.id == X)).isEmpty = false :=
    List.isEmpty_eq_false.mpr (List.ne_nil_of_mem hqmem)
  obtain ⟨q0, t0, hm⟩ :
      ∃ q0 t0, db.posts.filter (fun p => p.id == X) = q0 :: t0 := by
    cases hmm : db.posts.filter (fun p => p.id == X) with
    | nil => rw [hmm] at hne; simp at hne
    | cons a l => exact ⟨a, l, rfl⟩
  have hq0id : q0.id = X := by
    have : q0 ∈ db.posts.filter (fun p => p.id == X) := by
      rw [hm]; exact List.mem_cons_self q0 t0
    have := (List.mem_filter.mp this).2
    exact by simpa using this
  have hhead :
      ((db.posts.filter (fun p => p.id == X)).map (applyUpdate ⟨T, B, U⟩)).head?
        = some ⟨X, U, T, B⟩ := by
    rw [hm]
    simp [applyUpdate, hq0id]
  constructor
  · rw [update_post_true]
    simp only [hne, hfk, Bool.false_eq_true, if_false, hhead]
  · rw [update_post_true]
    simp only [hne, hfk, Bool.false_eq_true, if_false]
    rw [get_post_true]
    simp only [filter_update_comm, hhead]

/-- C2 witness: on a store holding post 1 with old content, updating id 1
    to ("T", "B", no user) and fetching id 1 both return exactly the
    replaced post. -/
theorem update_then_get_full_replacement_witness :
    (∃ q ∈ ({ posts := [⟨1, some 7, "old", "old"⟩], users := [⟨7, "u", "e"⟩],
              nextPostId := 2, nextUserId := 8 } : DB).posts, q.id = 1) ∧
    fkViolation none
        { posts := [⟨1, some 7, "old", "old"⟩], users := [⟨7, "u", "e"⟩],
          nextPostId := 2, nextUserId := 8 } = false ∧
    (update_post true
        { posts := [⟨1, some 7, "old", "old"⟩], users := [⟨7, "u", "e"⟩],
          nextPostId := 2, nextUserId := 8 } 1 ⟨"T", "B", none⟩).1
      = Except.ok ⟨1, none, "T", "B"⟩ ∧
    (get_post true
        (update_post true
          { posts := [⟨1, some 7, "old", "old"⟩], users := [⟨7, "u", "e"⟩],
            nextPostId := 2, nextUserId := 8 } 1 ⟨"T", "B", none⟩).2 1).1
      = Except.ok ⟨1, none, "T", "B"⟩ := by
  refine ⟨⟨⟨1, some 7, "old", "old"⟩, by decide, rfl⟩, rfl, ?_⟩
  exact update_then_get_full_replacement
    { posts := [⟨1, some 7, "old", "old"⟩], users := [⟨7, "u", "e"⟩],
      nextPostId := 2, nextUserId := 8 } 1 "T" "B" none
    ⟨⟨1, some 7, "old", "old"⟩, by decide, rfl⟩ rfl

/-- C7: create-then-get round trip. On a store whose post ids are all
    below the SERIAL counter (true of every reachable store), fetching a
    post by the id returned from a successful create, immediately after
    that create, yields the identical post — same title, body and
    user_id. -/
theorem create_then_get_roundtrip (db : DB) (np : CreatePost) (p : Post) (db2 : DB)
    (hfresh : ∀ q ∈ db.posts, q.id < db.nextPostId)
    (hok : create_post true db np = (Except.ok p, db2)) :
    get_post true db2 p.id = (Except.ok p, db2) ∧
    p.title = np.title ∧ p.body = np.body ∧ p.user_id = np.user_id := by
  rw [create_post_true] at hok
  by_cases hfk : fkViolation np.user_id db
  · rw [if_pos hfk] at hok
    exact absurd (congrArg Prod.fst hok) (by simp)
  · rw [if_neg hfk] at hok
    have hp : p = ⟨db.nextPostId, np.user_id, np.title, np.body⟩ := by
      have := congrArg Prod.fst hok
      simpa using this.symm
    have hdb2 : db2 =
        { db with
            posts := db.posts ++ [⟨db.nextPostId, np.user_id, np.title, np.body⟩],
            nextPostId := db.nextPostId + 1 } := by
      have := congrArg Prod.snd hok
      exact this.symm
    subst hp hdb2
    refine ⟨?_, rfl, rfl, rfl⟩
    rw [get_post_true]
    have hfilter :
        (db.posts ++ [(⟨db.nextPostId, np.user_id, np.title, np.body⟩ : Post)]).filter
            (fun q => q.id == db.nextPostId)
          = [⟨db.nextPostId, np.user_id, np.title, np.body⟩] := by
      rw [List.filter_append]
      have h1 : db.posts.filter (fun q => q.id == db.nextPostId) = [] := by
        apply List.filter_eq_nil_iff.mpr
        intro q hq
        simp [Int.ne_of_lt (hfresh q hq)]
      rw [h1]
      simp
    simp only [hfilter, List.head?_cons]

/-- C7 witness: creating a post on a fresh one-post store and fetching
    the returned id gives back the identical post. -/
theorem create_then_get_roundtrip_witness :
    (∀ q ∈ ({ posts := [⟨1, none, "a", "b"⟩], users := [], nextPostId := 2,
              nextUserId := 1 } : DB).posts, q.id < 2) ∧
    get_post true
        { posts := [⟨1, none, "a", "b"⟩, ⟨2, none, "t2", "b2"⟩], users := [],
          nextPostId := 3, nextUserId := 1 }
        (2 : Int) =
      (Except.ok ⟨2, none, "t2", "b2"⟩,
       { posts := [⟨1, none, "a", "b"⟩, ⟨2, none, "t2", "b2"⟩], users := [],
         nextPostId := 3, nextUserId := 1 }) := by
  refine ⟨by decide, ?_⟩
  exact (create_then_get_roundtrip
    { posts := [⟨1, none, "a", "b"⟩], users := [], nextPostId := 2, nextUserId := 1 }
    ⟨none, "t2", "b2"⟩ ⟨2, none, "t2", "b2"⟩
    { posts := [⟨1, none, "a", "b"⟩, ⟨2, none, "t2", "b2"⟩], users := [],
      nextPostId := 3, nextUserId := 1 }
    (by decide) rfl).1

/-- C1: create-post contract. In any store reached from the fresh store
    by any request trace, a successful create returns status 200 with a
    Post whose title, body and user_id equal the submitted values and
    whose id is the storage-generated SERIAL value, never an id returned
    by any prior create; every failing create — a storage failure or an
    invalid foreign key — yields a bare 500 and leaves the store
    unchanged. -/
theorem create_post_contract (trace : List (Bool × Request)) (db : DB)
    (ids : List Int) (np : CreatePost)
    (htr : serveTrace initDB [] trace = (db, ids)) :
    (∀ p db2, create_post true db np = (Except.ok p, db2) →
       p.title = np.title ∧ p.body = np.body ∧ p.user_id = np.user_id ∧
       p.id = db.nextPostId ∧ p.id ∉ ids ∧
       statusOf (create_post true db np).1 = 200) ∧
    (∀ h e db2, create_post h db np = (Except.error e, db2) → e = 500 ∧ db2 = db) ∧
    create_post false db np = (Except.error 500, db) ∧
    (fkViolation np.user_id db = true →
       create_post true db np = (Except.error 500, db)) := by
  have hinv : freshInv db ids := by
    have hstep := serveTrace_preserves_freshInv trace initDB [] freshInv_init
    rw [htr] at hstep
    exact hstep
  refine ⟨?_, ?_, create_post_false db np, ?_⟩
  · intro p db2 hok
    rw [create_post_true] at hok
    by_cases hfk : fkViolation np.user_id db
    · rw [if_pos hfk] at hok
      exact absurd (congrArg Prod.fst hok) (by simp)
    · rw [if_neg hfk] at hok
      have hp : p = ⟨db.nextPostId, np.user_id, np.title, np.body⟩ := by
        have := congrArg Prod.fst hok
        simpa using this.symm
      subst hp
      refine ⟨rfl, rfl, rfl, rfl, ?_, ?_⟩
      · intro hmem
        exact absurd (hinv.2 _ hmem) (lt_irrefl _)
      · rw [create_post_true, if_neg hfk]
        rfl
  · intro h e db2 herr
    cases h with
    | false =>
        rw [create_post_false] at herr
        have h1 := congrArg Prod.fst herr
        have h2 := congrArg Prod.snd herr
        simp at h1 h2
        exact ⟨h1.symm, h2.symm⟩
    | true =>
        rw [create_post_true] at herr
        by_cases hfk : fkViolation np.user_id db
        · rw [if_pos hfk] at herr
          have h1 := congrArg Prod.fst herr
          have h2 := congrArg Prod.snd herr
          simp at h1 h2
          exact ⟨h1.symm, h2.symm⟩
        · rw [if_neg hfk] at herr
          exact absurd (congrArg Prod.fst herr) (by simp)
  · intro hfk
    rw [create_post_true, if_pos hfk]

/-- C1 witness: after a trace consisting of one successful create
    (which returned id 1), a second create returns id 2, echoing its
    input fields, with 2 not among the previously returned ids. -/
theorem create_post_contract_witness :
    (serveTrace initDB [] [(true, Request.createPost ⟨none, "w", "x"⟩)] =
      ({ posts := [⟨1, none, "w", "x"⟩], users := [], nextPostId := 2,
         nextUserId := 1 }, [1])) ∧
    ("t" = "t" ∧ "b" = "b" ∧ (none : Option Int) = none ∧ (2 : Int) = 2 ∧
     (2 : Int) ∉ [(1 : Int)] ∧
     statusOf (create_post true
        { posts := [⟨1, none, "w", "x"⟩], users := [], nextPostId := 2,
          nextUserId := 1 } ⟨none, "t", "b"⟩).1 = 200) := by
  refine ⟨rfl, ?_⟩
  exact (create_post_contract [(true, Request.createPost ⟨none, "w", "x"⟩)]
    { posts := [⟨1, none, "w", "x"⟩], users := [], nextPostId := 2, nextUserId := 1 }
    [1] ⟨none, "t", "b"⟩ rfl).1
    ⟨2, none, "t", "b"⟩
    { posts := [⟨1, none, "w", "x"⟩, ⟨2, none, "t", "b"⟩], users := [],
      nextPostId := 3, nextUserId := 1 } rfl
